import Mathlib

/-!
Shallow embedding of `src/app.py` (a small chat application built on a UI
toolkit, a pandas/fitz document reader and an external chat-completion API),
together with proofs about its prompt-construction and conversation-state
pipeline.

Modelling conventions:
* Python strings are sequences of characters, modelled as `List Char`
  (`PyStr`); Python `len` is `List.length`, slicing `s[:n]` is `List.take n`,
  f-string concatenation is `++`.
* The external completion endpoint (`openai.chat.completions.create` followed
  by `.choices[0].message.content`) is an oracle `Api`: on success it yields
  the first generated choice's text, on any transport or provider failure it
  yields the raised exception's text.  The Python `try/except` around the call
  becomes a `match` on that `Except` value.
* File handles are modelled by `UFile`: the file's name plus the outcome of
  each way the code may read it (`open(...).read()`, `pd.read_csv`,
  `fitz.open` page texts), each of which may raise (`Except`), since the
  library calls are external.
* Wall-clock timestamps are passed in as parameters.
-/

/-- A Python string: a sequence of characters. -/
abbrev PyStr := List Char

/-- Embed a Lean string literal as a Python string. -/
def pys (s : String) : PyStr := s.toList

/-- One entry of the `messages` list sent to the completion endpoint:
a `{"role": ..., "content": ...}` dict. -/
structure Msg where
  role : PyStr
  content : PyStr
deriving DecidableEq

/-- One `(user, bot)` pair of the `chat_history` list. -/
abbrev Turn := PyStr × PyStr

/-- The external completion endpoint: given the message list, either the first
generated choice's text, or (on any transport/provider failure) the text of the
raised exception. -/
abbrev Api := List Msg → Except PyStr PyStr

/-- The tone dictionary lookup of `get_system_prompt` (src/app.py:20-24):
`{...}.get(mood, "You are a helpful assistant.")`. -/
def tone_clause (mood : PyStr) : PyStr :=
  if mood = pys "Friendly" then pys "You are a helpful and friendly assistant."
  else if mood = pys "Professional" then pys "You are a formal and knowledgeable assistant."
  else if mood = pys "Humorous" then pys "You are a witty and engaging assistant."
  else pys "You are a helpful assistant."

/-- The detail dictionary lookup of `get_system_prompt` (src/app.py:26-30):
`{...}.get(length, "")`. -/
def detail_clause (length : Int) : PyStr :=
  if length = 1 then pys "Give short and concise answers."
  else if length = 2 then pys "Give balanced and informative answers."
  else if length = 3 then pys "Give detailed and elaborate explanations."
  else pys ""

/-- `get_system_prompt(mood, length)` (src/app.py:19-32): `f"{tone} {detail}"`. -/
def get_system_prompt (mood : PyStr) (length : Int) : PyStr :=
  tone_clause mood ++ pys " " ++ detail_clause length

/-- The history expansion inside `query_openai` (src/app.py:39-41): each
`(user, bot)` pair of `chat_history` becomes a user-role message followed by an
assistant-role message. -/
def expandHistory (chat_history : List Turn) : List Msg :=
  chat_history.flatMap fun t => [Msg.mk (pys "user") t.1, Msg.mk (pys "assistant") t.2]

/-- The message-list construction of `query_openai` (src/app.py:36-43): system
message, expanded history, then the new user message.  (The spec calls this
`buildMessages`.) -/
def buildMessages (message : PyStr) (chat_history : List Turn)
    (mood : PyStr) (length : Int) : List Msg :=
  Msg.mk (pys "system") (get_system_prompt mood length) ::
    (expandHistory chat_history ++ [Msg.mk (pys "user") message])

/-- `query_openai(message, chat_history, mood, length)` (src/app.py:35-53):
build the message list, call the endpoint; return the first choice's text, or
`f"OpenAI API Error: {e}"` when the call raised `e`. -/
def query_openai (api : Api) (message : PyStr) (chat_history : List Turn)
    (mood : PyStr) (length : Int) : PyStr :=
  match api (buildMessages message chat_history mood length) with
  | .ok text => text
  | .error e => pys "OpenAI API Error: " ++ e

/-- `respond(message, chat_history, mood, length)` (src/app.py:56-61); the
wall-clock `timestamp` string is a parameter.  Returns the cleared input box
and the updated history. -/
def respond (api : Api) (timestamp : PyStr) (message : PyStr)
    (chat_history : List Turn) (mood : PyStr) (length : Int) : PyStr × List Turn :=
  let bot_reply := query_openai api message chat_history mood length
  (pys "", chat_history ++
    [(message ++ pys " (" ++ timestamp ++ pys ")",
      bot_reply ++ pys " (" ++ timestamp ++ pys ")")])

/-- The data the CSV branch of `process_file` (src/app.py:74-82) obtains from
pandas: `len(df)`, `df.columns`, and the rendered strings produced by the
external `df.head(5).to_string(index=False)` and
`df.describe(include='all').to_string()` calls. -/
structure CsvData where
  nrows : Nat
  columns : List PyStr
  sample : PyStr
  summary : PyStr

/-- An uploaded file handle: its `.name`, and the outcome of each way the code
may read it.  Each reader is external and may raise; the `Except` error carries
the exception's text. -/
structure UFile where
  name : PyStr
  readTxt : Except PyStr PyStr
  readCsv : Except PyStr CsvData
  readPdf : Except PyStr (List PyStr)

/-- The `.txt` truncation note (src/app.py:70):
`"\n\n[Note: Text was truncated.]" if len(content) > 3000 else ""`. -/
def txt_note (content : PyStr) : PyStr :=
  if 3000 < content.length then pys "\n\n[Note: Text was truncated.]" else pys ""

/-- The `.txt` analysis prompt (src/app.py:67-72): note computed on the full
text, then `content = content[:3000]`. -/
def txt_prompt (content : PyStr) : PyStr :=
  pys "Analyze this text file:\n\n" ++ content.take 3000 ++ txt_note content

/-- The `.csv` analysis prompt (src/app.py:74-82). -/
def csv_prompt (d : CsvData) : PyStr :=
  pys "This CSV file has " ++ pys (toString d.nrows) ++ pys " rows and "
    ++ pys (toString d.columns.length) ++ pys " columns.\n\nColumns: "
    ++ List.intercalate (pys ", ") d.columns
    ++ pys "\n\nSample rows:\n" ++ d.sample
    ++ pys "\n\nStats:\n" ++ d.summary

/-- The `.pdf` page loop (src/app.py:86-91): append each page's text; as soon
as the accumulated text exceeds 3000 characters, truncate to 3000 and stop. -/
def pdfLoop : List PyStr → PyStr → PyStr
  | [], text => text
  | page :: rest, text =>
    let text := text ++ page
    if 3000 < text.length then text.take 3000 else pdfLoop rest text

/-- The `.pdf` analysis prompt (src/app.py:84-92); the truncation note is
appended unconditionally. -/
def pdf_prompt (pages : List PyStr) : PyStr :=
  pys "Analyze this PDF content:\n\n" ++ pdfLoop pages (pys "")
    ++ pys "\n\n[Note: PDF content was truncated.]"

/-- The per-file dispatch of `process_file` (src/app.py:67-96): `none` for an
unsupported extension; otherwise the analysis prompt, or the exception raised
while reading.  Python's `str.endswith` is exact, case-sensitive suffix
matching, i.e. `List.isSuffixOf`. -/
def filePrompt (f : UFile) : Option (Except PyStr PyStr) :=
  if (pys ".txt").isSuffixOf f.name then some (f.readTxt.map txt_prompt)
  else if (pys ".csv").isSuffixOf f.name then some (f.readCsv.map csv_prompt)
  else if (pys ".pdf").isSuffixOf f.name then some (f.readPdf.map pdf_prompt)
  else none

/-- `process_file(files, chat_history, mood, length)` (src/app.py:64-104).
Returns the message-box text, the updated history, and — as instrumentation
for verification — the message sequence of each completion request issued, in
order.  An unsupported file appends a rejection turn and continues; a raised
exception aborts the whole batch, returning `f"Error reading file(s): {e}"`
with the turns appended so far; a supported file's prompt is sent with the
current history and the reply is appended as a turn labelled with the file
name. -/
def process_file (api : Api) (mood : PyStr) (length : Int) :
    List UFile → List Turn → PyStr × List Turn × List (List Msg)
  | [], chat_history => (pys "", chat_history, [])
  | file :: rest, chat_history =>
    match filePrompt file with
    | none =>
      process_file api mood length rest
        (chat_history ++ [(pys "[Unsupported file: " ++ file.name ++ pys "]",
                           pys "Only .txt, .csv, or .pdf are supported.")])
    | some (.error e) => (pys "Error reading file(s): " ++ e, chat_history, [])
    | some (.ok prompt) =>
      let response := query_openai api prompt chat_history mood length
      let result := process_file api mood length rest
        (chat_history ++ [(pys "[Uploaded file: " ++ file.name ++ pys "]", response)])
      (result.1, result.2.1, buildMessages prompt chat_history mood length :: result.2.2)

/-- The rendering of one turn as a "User: ...\nBot: ..." block, common to
`summarize_chat` (src/app.py:128) and `download_chat` (src/app.py:139). -/
def renderTurn (t : Turn) : PyStr :=
  pys "User: " ++ t.1 ++ pys "\nBot: " ++ t.2

/-- The transcript built by `summarize_chat` (src/app.py:128):
`"\n".join([f"User: {u}\nBot: {b}" for u, b in chat_history])`. -/
def chat_transcript (chat_history : List Turn) : PyStr :=
  List.intercalate (pys "\n") (chat_history.map renderTurn)

/-- `summarize_chat(chat_history)` (src/app.py:127-131): one-shot call with a
fixed Professional/2 persona and empty history. -/
def summarize_chat (api : Api) (chat_history : List Turn) : PyStr :=
  query_openai api (pys "Summarize this conversation:\n\n" ++ chat_transcript chat_history)
    [] (pys "Professional") 2

/-- The export file name of `download_chat` (src/app.py:135-136), given the
formatted `%Y%m%d_%H%M%S` timestamp. -/
def download_filename (now : PyStr) : PyStr :=
  pys "chat_history_" ++ now ++ pys ".txt"

/-- The body written by `download_chat` (src/app.py:137-139): one
`f"User: {user}\nBot: {bot}\n\n"` block per turn, in order. -/
def download_body (chat_history : List Turn) : PyStr :=
  (chat_history.map fun t => renderTurn t ++ pys "\n\n").flatten

/-- The `clear.click` handler (src/app.py:171): `lambda: ([], [])`, resetting
the visible transcript and the state to empty. -/
def clear_click : Unit → List Turn × List Turn := fun _ => ([], [])

/-- Modelled from the spec: rendering the conversation as "User: ...\nBot: ..."
blocks joined by blank lines (the rendering C7 asserts both export and
summarization use). -/
def blocksJoinedByBlankLines (chat_history : List Turn) : PyStr :=
  List.intercalate (pys "\n\n") (chat_history.map renderTurn)

/-! ### Helper lemmas -/

lemma expandHistory_nil : expandHistory [] = [] := rfl

lemma expandHistory_cons (t : Turn) (hist : List Turn) :
    expandHistory (t :: hist) =
      Msg.mk (pys "user") t.1 :: Msg.mk (pys "assistant") t.2 :: expandHistory hist := rfl

lemma expandHistory_length (hist : List Turn) :
    (expandHistory hist).length = 2 * hist.length := by
  induction hist with
  | nil => rfl
  | cons t hist ih =>
    rw [expandHistory_cons]
    simp only [List.length_cons, ih]
    omega

lemma expandHistory_getElem (hist : List Turn) (i : Nat) (h : i < hist.length) :
    (expandHistory hist)[2 * i]? = some (Msg.mk (pys "user") hist[i].1)
    ∧ (expandHistory hist)[2 * i + 1]? = some (Msg.mk (pys "assistant") hist[i].2) := by
  induction hist generalizing i with
  | nil => simp at h
  | cons t hist ih =>
    cases i with
    | zero => constructor <;> simp [expandHistory_cons]
    | succ j =>
      have h' : j < hist.length := by simpa using h
      have e1 : 2 * (j + 1) = 2 * j + 1 + 1 := by omega
      rw [expandHistory_cons, e1]
      simp only [List.getElem?_cons_succ]
      simpa using ih j h'

lemma expandHistory_roles (hist : List Turn) :
    ∀ m ∈ expandHistory hist, m.role = pys "user" ∨ m.role = pys "assistant" := by
  induction hist with
  | nil => simp [expandHistory_nil]
  | cons t hist ih =>
    intro m hm
    rw [expandHistory_cons] at hm
    simp only [List.mem_cons] at hm
    rcases hm with rfl | rfl | hm
    · exact Or.inl rfl
    · exact Or.inr rfl
    · exact ih m hm

lemma pys_err_ne_nil (e : PyStr) : pys "Error reading file(s): " ++ e ≠ pys "" :=
  List.cons_ne_nil _ _

lemma process_file_nil (api : Api) (mood : PyStr) (length : Int) (hist : List Turn) :
    process_file api mood length [] hist = (pys "", hist, []) := rfl

lemma process_file_cons_none (api : Api) (mood : PyStr) (length : Int)
    (f : UFile) (rest : List UFile) (hist : List Turn) (h : filePrompt f = none) :
    process_file api mood length (f :: rest) hist =
      process_file api mood length rest
        (hist ++ [(pys "[Unsupported file: " ++ f.name ++ pys "]",
                   pys "Only .txt, .csv, or .pdf are supported.")]) := by
  conv_lhs => unfold process_file
  rw [h]

lemma process_file_cons_error (api : Api) (mood : PyStr) (length : Int)
    (f : UFile) (rest : List UFile) (hist : List Turn) (e : PyStr)
    (h : filePrompt f = some (.error e)) :
    process_file api mood length (f :: rest) hist =
      (pys "Error reading file(s): " ++ e, hist, []) := by
  conv_lhs => unfold process_file
  rw [h]

lemma process_file_cons_ok (api : Api) (mood : PyStr) (length : Int)
    (f : UFile) (rest : List UFile) (hist : List Turn) (prompt : PyStr)
    (h : filePrompt f = some (.ok prompt)) :
    process_file api mood length (f :: rest) hist =
      ((process_file api mood length rest
          (hist ++ [(pys "[Uploaded file: " ++ f.name ++ pys "]",
                     query_openai api prompt hist mood length)])).1,
       (process_file api mood length rest
          (hist ++ [(pys "[Uploaded file: " ++ f.name ++ pys "]",
                     query_openai api prompt hist mood length)])).2.1,
       buildMessages prompt hist mood length ::
         (process_file api mood length rest
            (hist ++ [(pys "[Uploaded file: " ++ f.name ++ pys "]",
                       query_openai api prompt hist mood length)])).2.2) := by
  conv_lhs => unfold process_file
  rw [h]

/-- Composition: if processing a first tranche of files raises no exception,
processing the concatenated batch processes the second tranche from the
history produced by the first, and issues the requests of both in order. -/
lemma process_file_append (api : Api) (mood : PyStr) (length : Int) :
    ∀ (l1 l2 : List UFile) (hist : List Turn),
      (process_file api mood length l1 hist).1 = pys "" →
      process_file api mood length (l1 ++ l2) hist =
        ((process_file api mood length l2 (process_file api mood length l1 hist).2.1).1,
         (process_file api mood length l2 (process_file api mood length l1 hist).2.1).2.1,
         (process_file api mood length l1 hist).2.2
           ++ (process_file api mood length l2
                 (process_file api mood length l1 hist).2.1).2.2) := by
  intro l1
  induction l1 with
  | nil => intro l2 hist h; simp [process_file_nil]
  | cons f l1' ih =>
    intro l2 hist h
    cases hfp : filePrompt f with
    | none =>
      rw [List.cons_append, process_file_cons_none api mood length f (l1' ++ l2) _ hfp]
      rw [process_file_cons_none api mood length f l1' _ hfp] at h ⊢
      exact ih l2 _ h
    | some exc =>
      cases exc with
      | error e =>
        rw [process_file_cons_error api mood length f l1' hist e hfp] at h
        exact absurd h (pys_err_ne_nil e)
      | ok prompt =>
        rw [process_file_cons_ok api mood length f l1' hist prompt hfp] at h ⊢
        rw [List.cons_append, process_file_cons_ok api mood length f (l1' ++ l2) hist prompt hfp]
        rw [ih l2 _ h]
        simp

/-- Full characterization of the `.pdf` page loop, for accumulators not yet
over the cap: it computes the concatenation of all pages, truncated to 3000
characters as soon as (and only if) the accumulated length exceeds 3000. -/
lemma pdfLoop_eq : ∀ (pages : List PyStr) (acc : PyStr), acc.length ≤ 3000 →
    pdfLoop pages acc =
      if 3000 < (acc ++ pages.flatten).length then (acc ++ pages.flatten).take 3000
      else acc ++ pages.flatten := by
  intro pages
  induction pages with
  | nil =>
    intro acc h
    rw [pdfLoop, List.flatten_nil, List.append_nil, if_neg (by omega)]
  | cons p rest ih =>
    intro acc h
    rw [pdfLoop, List.flatten_cons, ← List.append_assoc]
    by_cases hc : 3000 < (acc ++ p).length
    · rw [if_pos hc, if_pos (by simp only [List.length_append] at hc ⊢; omega)]
      rw [List.take_append_of_le_length (Nat.le_of_lt hc)]
    · rw [if_neg hc]
      exact ih (acc ++ p) (by omega)

lemma intercalate_nil_py (s : PyStr) : List.intercalate s [] = ([] : PyStr) := rfl

lemma intercalate_single_py (s a : PyStr) : List.intercalate s [a] = a := by
  simp [List.intercalate]

lemma intercalate_cons₂_py (s a b : PyStr) (l : List PyStr) :
    List.intercalate s (a :: b :: l) = a ++ s ++ List.intercalate s (b :: l) := by
  simp [List.intercalate, List.append_assoc]

/-! ### Claim theorems -/

/-- C1: for every mood, detail level, chat history and new user message, the
message sequence built for a completion call starts with exactly one
system-role message holding the system prompt, expands each prior turn in
history order into a user-role then an assistant-role message, ends with the
new user-role message, and has length `2 * |history| + 2`. -/
theorem buildMessages_structure (message : PyStr) (hist : List Turn)
    (mood : PyStr) (length : Int) :
    (buildMessages message hist mood length).length = 2 * hist.length + 2
    ∧ (buildMessages message hist mood length).head? =
        some (Msg.mk (pys "system") (get_system_prompt mood length))
    ∧ ((buildMessages message hist mood length).filter
        (fun m => m.role == pys "system")).length = 1
    ∧ (∀ i, ∀ h : i < hist.length,
        (buildMessages message hist mood length)[2 * i + 1]? =
          some (Msg.mk (pys "user") hist[i].1)
        ∧ (buildMessages message hist mood length)[2 * i + 2]? =
          some (Msg.mk (pys "assistant") hist[i].2))
    ∧ (buildMessages message hist mood length).getLast? =
        some (Msg.mk (pys "user") message) := by
  refine ⟨?_, rfl, ?_, ?_, ?_⟩
  · simp only [buildMessages, List.length_cons, List.length_append,
      expandHistory_length, List.length_nil]
  · have h1 : (expandHistory hist).filter (fun m => m.role == pys "system") = [] := by
      rw [List.filter_eq_nil_iff]
      intro m hm
      rcases expandHistory_roles hist m hm with hr | hr <;> · rw [hr]; decide
    have hu : ((Msg.mk (pys "user") message).role == pys "system") = false := rfl
    have h2 : ((Msg.mk (pys "user") message) :: ([] : List Msg)).filter
        (fun m => m.role == pys "system") = [] := by
      rw [List.filter_cons, hu, if_neg (by decide), List.filter_nil]
    have hs : ((Msg.mk (pys "system") (get_system_prompt mood length)).role ==
        pys "system") = true := rfl
    unfold buildMessages
    rw [List.filter_cons, hs, if_pos rfl, List.filter_append, h1, h2]
    rfl
  · intro i h
    unfold buildMessages
    constructor
    · rw [List.getElem?_cons_succ,
        List.getElem?_append_left (by rw [expandHistory_length]; omega)]
      exact (expandHistory_getElem hist i h).1
    · rw [show 2 * i + 2 = (2 * i + 1) + 1 by omega, List.getElem?_cons_succ,
        List.getElem?_append_left (by rw [expandHistory_length]; omega)]
      exact (expandHistory_getElem hist i h).2
  · unfold buildMessages
    rw [← List.cons_append, List.getLast?_concat]

/-- Witness for C1 at a concrete one-turn history. -/
theorem buildMessages_structure_witness :
    (buildMessages (pys "Hello") [(pys "Hi", pys "Yo")] (pys "Friendly") 2).length = 4
    ∧ (buildMessages (pys "Hello") [(pys "Hi", pys "Yo")] (pys "Friendly") 2)[1]? =
        some (Msg.mk (pys "user") (pys "Hi"))
    ∧ (buildMessages (pys "Hello") [(pys "Hi", pys "Yo")] (pys "Friendly") 2)[2]? =
        some (Msg.mk (pys "assistant") (pys "Yo")) := by
  have h := buildMessages_structure (pys "Hello") [(pys "Hi", pys "Yo")] (pys "Friendly") 2
  refine ⟨by simpa using h.1, ?_, ?_⟩
  · have := (h.2.2.2.1 0 (by decide)).1
    simpa using this
  · have := (h.2.2.2.1 0 (by decide)).2
    simpa using this

/-- C2: `get_system_prompt` is deterministic and non-empty for every mood and
detail level; an unrecognized mood falls back to the default tone clause; a
detail level outside {1,2,3} yields the empty detail clause; and
mood=Friendly, detail=2 yields exactly the advertised string. -/
theorem get_system_prompt_spec (mood : PyStr) (length : Int) :
    get_system_prompt mood length ≠ pys ""
    ∧ (mood ≠ pys "Friendly" → mood ≠ pys "Professional" → mood ≠ pys "Humorous" →
        tone_clause mood = pys "You are a helpful assistant.")
    ∧ (length ≠ 1 → length ≠ 2 → length ≠ 3 → detail_clause length = pys "")
    ∧ get_system_prompt (pys "Friendly") 2 =
        pys "You are a helpful and friendly assistant. Give balanced and informative answers." := by
  refine ⟨?_, ?_, ?_, by decide⟩
  · intro hc
    unfold get_system_prompt at hc
    have h2 : tone_clause mood ++ pys " " = [] := (List.append_eq_nil.mp hc).1
    exact absurd (List.append_eq_nil.mp h2).2 (by decide)
  · intro h1 h2 h3
    unfold tone_clause
    rw [if_neg h1, if_neg h2, if_neg h3]
  · intro h1 h2 h3
    unfold detail_clause
    rw [if_neg h1, if_neg h2, if_neg h3]

/-- Witness for C2 at an unrecognized mood and an out-of-range detail level. -/
theorem get_system_prompt_spec_witness :
    get_system_prompt (pys "Sarcastic") 0 ≠ pys ""
    ∧ tone_clause (pys "Sarcastic") = pys "You are a helpful assistant."
    ∧ detail_clause 0 = pys "" := by
  have h := get_system_prompt_spec (pys "Sarcastic") 0
  exact ⟨h.1, h.2.1 (by decide) (by decide) (by decide),
    h.2.2.1 (by decide) (by decide) (by decide)⟩

/-- C3: `query_openai` is a total function of the endpoint's outcome — it
never propagates a failure: on success it returns the first generated choice's
text, and on any failure it returns `"OpenAI API Error: " ++ details`. -/
theorem query_openai_spec (api : Api) (message : PyStr) (chat_history : List Turn)
    (mood : PyStr) (length : Int) :
    (∀ text, api (buildMessages message chat_history mood length) = .ok text →
        query_openai api message chat_history mood length = text)
    ∧ (∀ e, api (buildMessages message chat_history mood length) = .error e →
        query_openai api message chat_history mood length =
          pys "OpenAI API Error: " ++ e) := by
  constructor
  · intro t ht
    unfold query_openai
    rw [ht]
  · intro e he
    unfold query_openai
    rw [he]

/-- Witness for C3: a succeeding and a failing endpoint, each at a concrete
request. -/
theorem query_openai_spec_witness :
    query_openai (fun _ => .ok (pys "Hi there!")) (pys "Hello") [] (pys "Friendly") 2 =
      pys "Hi there!"
    ∧ query_openai (fun _ => .error (pys "timeout")) (pys "Hello") [] (pys "Friendly") 2 =
      pys "OpenAI API Error: timeout" := by
  constructor
  · exact (query_openai_spec (fun _ => .ok (pys "Hi there!"))
      (pys "Hello") [] (pys "Friendly") 2).1 (pys "Hi there!") rfl
  · have h := (query_openai_spec (fun _ => .error (pys "timeout"))
      (pys "Hello") [] (pys "Friendly") 2).2 (pys "timeout") rfl
    rw [h]
    decide

/-- C4: a file whose name does not end in ".txt", ".csv" or ".pdf" (exact,
case-sensitive suffix match) makes the upload handler append the fixed
rejection turn and continue with the remaining files, issuing no completion
request for it: processing `f :: rest` equals processing `rest` from the
history extended by the rejection turn (in particular the recorded requests
are exactly those of `rest`). -/
theorem process_file_unsupported (api : Api) (mood : PyStr) (length : Int)
    (f : UFile) (rest : List UFile) (hist : List Turn)
    (h1 : (pys ".txt").isSuffixOf f.name = false)
    (h2 : (pys ".csv").isSuffixOf f.name = false)
    (h3 : (pys ".pdf").isSuffixOf f.name = false) :
    process_file api mood length (f :: rest) hist =
      process_file api mood length rest
        (hist ++ [(pys "[Unsupported file: " ++ f.name ++ pys "]",
                   pys "Only .txt, .csv, or .pdf are supported.")]) :=
  process_file_cons_none api mood length f rest hist
    (by unfold filePrompt; rw [h1, h2, h3]; rfl)

/-- Witness for C4: a single `.docx` upload appends only the rejection turn
and records no completion request. -/
theorem process_file_unsupported_witness :
    process_file (fun _ => .ok (pys "ok")) (pys "Friendly") 2
        [UFile.mk (pys "report.docx") (.error (pys "x")) (.error (pys "x"))
          (.error (pys "x"))] [] =
      (pys "", [(pys "[Unsupported file: report.docx]",
                 pys "Only .txt, .csv, or .pdf are supported.")], []) := by
  have h := process_file_unsupported (fun _ => .ok (pys "ok")) (pys "Friendly") 2
    (UFile.mk (pys "report.docx") (.error (pys "x")) (.error (pys "x")) (.error (pys "x")))
    [] [] (by decide) (by decide) (by decide)
  rw [h, process_file_nil]
  decide

/-- C5: across the three operations that take the conversation, the
conversation only grows by appending at the end or is reset wholesale: a send
appends exactly one turn, an upload batch leaves the incoming history a prefix
of the outgoing one, and the clear handler returns the empty conversation. -/
theorem conversation_append_only (api : Api) (timestamp message : PyStr)
    (hist : List Turn) (mood : PyStr) (length : Int) (files : List UFile) :
    (∃ t, (respond api timestamp message hist mood length).2 = hist ++ [t])
    ∧ hist <+: (process_file api mood length files hist).2.1
    ∧ clear_click () = ([], []) := by
  refine ⟨⟨_, rfl⟩, ?_, rfl⟩
  induction files generalizing hist with
  | nil => exact ⟨[], List.append_nil hist⟩
  | cons f rest ih =>
    cases hfp : filePrompt f with
    | none =>
      rw [process_file_cons_none api mood length f rest hist hfp]
      exact List.IsPrefix.trans ⟨_, rfl⟩ (ih _)
    | some exc =>
      cases exc with
      | error e =>
        rw [process_file_cons_error api mood length f rest hist e hfp]
      | ok prompt =>
        rw [process_file_cons_ok api mood length f rest hist prompt hfp]
        exact List.IsPrefix.trans ⟨_, rfl⟩ (ih _)

/-- C6: if extracting some file raises, the batch is aborted there: the
remaining files are not processed, the exception text is surfaced (prefixed
with "Error reading file(s): "), and the history keeps exactly the turns
appended for the earlier files. -/
theorem process_file_abort (api : Api) (mood : PyStr) (length : Int)
    (prev : List UFile) (f : UFile) (rest : List UFile) (hist : List Turn) (e : PyStr)
    (h1 : (process_file api mood length prev hist).1 = pys "")
    (h2 : filePrompt f = some (.error e)) :
    process_file api mood length (prev ++ f :: rest) hist =
      (pys "Error reading file(s): " ++ e,
       (process_file api mood length prev hist).2.1,
       (process_file api mood length prev hist).2.2) := by
  rw [process_file_append api mood length prev (f :: rest) hist h1]
  rw [process_file_cons_error api mood length f rest _ e h2]
  simp

/-- Witness for C6: a good `.txt` file followed by an unreadable `.txt` file
and one more file; the batch aborts after the second file, keeping the turn of
the first. -/
theorem process_file_abort_witness :
    process_file (fun _ => .ok (pys "fine")) (pys "Friendly") 2
        [UFile.mk (pys "a.txt") (.ok (pys "hello")) (.error (pys "x")) (.error (pys "x")),
         UFile.mk (pys "b.txt") (.error (pys "boom")) (.error (pys "x")) (.error (pys "x")),
         UFile.mk (pys "c.txt") (.ok (pys "later")) (.error (pys "x")) (.error (pys "x"))] [] =
      (pys "Error reading file(s): boom",
       [(pys "[Uploaded file: a.txt]", pys "fine")],
       [buildMessages (txt_prompt (pys "hello")) [] (pys "Friendly") 2]) := by
  have h := process_file_abort (fun _ => .ok (pys "fine")) (pys "Friendly") 2
    [UFile.mk (pys "a.txt") (.ok (pys "hello")) (.error (pys "x")) (.error (pys "x"))]
    (UFile.mk (pys "b.txt") (.error (pys "boom")) (.error (pys "x")) (.error (pys "x")))
    [UFile.mk (pys "c.txt") (.ok (pys "later")) (.error (pys "x")) (.error (pys "x"))]
    [] (pys "boom") rfl rfl
  rw [show ([UFile.mk (pys "a.txt") (.ok (pys "hello")) (.error (pys "x")) (.error (pys "x")),
         UFile.mk (pys "b.txt") (.error (pys "boom")) (.error (pys "x")) (.error (pys "x")),
         UFile.mk (pys "c.txt") (.ok (pys "later")) (.error (pys "x")) (.error (pys "x"))] : List UFile) =
      [UFile.mk (pys "a.txt") (.ok (pys "hello")) (.error (pys "x")) (.error (pys "x"))] ++
        UFile.mk (pys "b.txt") (.error (pys "boom")) (.error (pys "x")) (.error (pys "x")) ::
          [UFile.mk (pys "c.txt") (.ok (pys "later")) (.error (pys "x")) (.error (pys "x"))]
      from rfl, h]
  decide

/-- C10: in a multi-file batch, the completion request for a supported file is
built over the conversation as it stands at that point — the history produced
by the earlier files of the batch, rejection turns and analysis turns included
— expanded (by `buildMessages`) ahead of that file's analysis prompt. -/
theorem process_file_batch_context (api : Api) (mood : PyStr) (length : Int)
    (prev : List UFile) (f : UFile) (rest : List UFile) (hist : List Turn) (prompt : PyStr)
    (h1 : (process_file api mood length prev hist).1 = pys "")
    (h2 : filePrompt f = some (.ok prompt)) :
    process_file api mood length (prev ++ f :: rest) hist =
      ((process_file api mood length rest
          ((process_file api mood length prev hist).2.1 ++
           [(pys "[Uploaded file: " ++ f.name ++ pys "]",
             query_openai api prompt (process_file api mood length prev hist).2.1
               mood length)])).1,
       (process_file api mood length rest
          ((process_file api mood length prev hist).2.1 ++
           [(pys "[Uploaded file: " ++ f.name ++ pys "]",
             query_openai api prompt (process_file api mood length prev hist).2.1
               mood length)])).2.1,
       (process_file api mood length prev hist).2.2 ++
         buildMessages prompt (process_file api mood length prev hist).2.1 mood length ::
           (process_file api mood length rest
              ((process_file api mood length prev hist).2.1 ++
               [(pys "[Uploaded file: " ++ f.name ++ pys "]",
                 query_openai api prompt (process_file api mood length prev hist).2.1
                   mood length)])).2.2) := by
  rw [process_file_append api mood length prev (f :: rest) hist h1]
  rw [process_file_cons_ok api mood length f rest _ prompt h2]

/-- Witness for C10: an unsupported file followed by a supported one; the
request for the supported file is built over the history holding the
rejection turn. -/
theorem process_file_batch_context_witness :
    process_file (fun _ => .ok (pys "sure")) (pys "Friendly") 2
        [UFile.mk (pys "notes.docx") (.error (pys "x")) (.error (pys "x")) (.error (pys "x")),
         UFile.mk (pys "a.txt") (.ok (pys "hi")) (.error (pys "x")) (.error (pys "x"))] [] =
      (pys "",
       [(pys "[Unsupported file: notes.docx]", pys "Only .txt, .csv, or .pdf are supported."),
        (pys "[Uploaded file: a.txt]", pys "sure")],
       [buildMessages (txt_prompt (pys "hi"))
          [(pys "[Unsupported file: notes.docx]", pys "Only .txt, .csv, or .pdf are supported.")]
          (pys "Friendly") 2]) := by
  have h := process_file_batch_context (fun _ => .ok (pys "sure")) (pys "Friendly") 2
    [UFile.mk (pys "notes.docx") (.error (pys "x")) (.error (pys "x")) (.error (pys "x"))]
    (UFile.mk (pys "a.txt") (.ok (pys "hi")) (.error (pys "x")) (.error (pys "x")))
    [] [] (txt_prompt (pys "hi")) rfl rfl
  rw [show ([UFile.mk (pys "notes.docx") (.error (pys "x")) (.error (pys "x")) (.error (pys "x")),
        UFile.mk (pys "a.txt") (.ok (pys "hi")) (.error (pys "x")) (.error (pys "x"))] : List UFile) =
      [UFile.mk (pys "notes.docx") (.error (pys "x")) (.error (pys "x")) (.error (pys "x"))] ++
        UFile.mk (pys "a.txt") (.ok (pys "hi")) (.error (pys "x")) (.error (pys "x")) :: []
      from rfl, h]
  decide

/-- C7 counterexample: on a two-turn conversation the summarization transcript
(blocks joined by a single newline) differs from the blank-line-joined
rendering the claim asserts both share. -/
theorem summarize_export_render_differ :
    chat_transcript [(pys "a", pys "b"), (pys "c", pys "d")] ≠
      blocksJoinedByBlankLines [(pys "a", pys "b"), (pys "c", pys "d")] := by
  decide

lemma download_body_cons (t : Turn) (hist : List Turn) :
    download_body (t :: hist) = renderTurn t ++ pys "\n\n" ++ download_body hist := by
  simp [download_body, List.append_assoc]

lemma blocks_cons₂ (t u : Turn) (l : List Turn) :
    blocksJoinedByBlankLines (t :: u :: l) =
      renderTurn t ++ pys "\n\n" ++ blocksJoinedByBlankLines (u :: l) := by
  unfold blocksJoinedByBlankLines
  rw [List.map_cons, List.map_cons, intercalate_cons₂_py, ← List.map_cons]

/-- C7 amended: the export body renders each turn as a "User: ...\nBot: ..."
block followed by a blank line (so blocks are joined by blank lines, with one
trailing blank line), and the export file is named
`chat_history_<timestamp>.txt`; the summarization transcript instead joins the
same blocks by a single newline, with no blank line between blocks. -/
theorem export_render_spec (hist : List Turn) (now : PyStr) :
    download_body hist =
        blocksJoinedByBlankLines hist ++ (if hist = [] then pys "" else pys "\n\n")
    ∧ chat_transcript hist = List.intercalate (pys "\n") (hist.map renderTurn)
    ∧ download_filename now = pys "chat_history_" ++ now ++ pys ".txt" := by
  refine ⟨?_, rfl, rfl⟩
  induction hist with
  | nil => rfl
  | cons t hist ih =>
    rw [download_body_cons, ih]
    cases hist with
    | nil =>
      rw [if_pos rfl, if_neg (List.cons_ne_nil t [])]
      show renderTurn t ++ pys "\n\n" ++ (([] : PyStr) ++ []) =
        blocksJoinedByBlankLines [t] ++ pys "\n\n"
      rw [show blocksJoinedByBlankLines [t] = renderTurn t from
        intercalate_single_py (pys "\n\n") (renderTurn t)]
      simp
    | cons u l =>
      rw [if_neg (List.cons_ne_nil u l), if_neg (List.cons_ne_nil t (u :: l)),
        blocks_cons₂]
      simp [List.append_assoc]

/-- C8: `.pdf` extraction concatenates page by page; once the accumulated text
exceeds 3000 characters it is cut to exactly 3000 and later pages are ignored
(the result does not depend on them); when the whole document is within 3000
characters the full text is produced; and the prompt carries the truncation
note in every case. -/
theorem pdf_extract_spec (pages : List PyStr) :
    (3000 < pages.flatten.length →
        pdfLoop pages (pys "") = pages.flatten.take 3000
        ∧ (pdfLoop pages (pys "")).length = 3000)
    ∧ (pages.flatten.length ≤ 3000 → pdfLoop pages (pys "") = pages.flatten)
    ∧ (∀ acc p rest, 3000 < (acc ++ p).length →
        pdfLoop (p :: rest) acc = (acc ++ p).take 3000)
    ∧ pys "[Note: PDF content was truncated.]" <:+ pdf_prompt pages := by
  have hbase := pdfLoop_eq pages (pys "") (by decide)
  rw [show ((pys "" : PyStr) ++ pages.flatten) = pages.flatten from rfl] at hbase
  refine ⟨?_, ?_, ?_, ?_⟩
  · intro h
    rw [hbase, if_pos h]
    refine ⟨rfl, ?_⟩
    rw [List.length_take]
    omega
  · intro h
    rw [hbase, if_neg (by omega)]
  · intro acc p rest h
    simp only [pdfLoop]
    rw [if_pos h]
  · exact ⟨pys "Analyze this PDF content:\n\n" ++ pdfLoop pages (pys "") ++ pys "\n\n", by
      unfold pdf_prompt
      simp [List.append_assoc, pys]⟩

/-- Witness for C8: a 3001-character single-page document is cut to 3000; a
short two-page document is fully concatenated; a page pushing the accumulator
over the cap truncates regardless of later pages; the truncation note is a
suffix of the prompt of a short document. -/
theorem pdf_extract_spec_witness :
    (pdfLoop [List.replicate 3001 'a'] (pys "")).length = 3000
    ∧ pdfLoop [pys "one", pys "two"] (pys "") =
        ([pys "one", pys "two"] : List PyStr).flatten
    ∧ pdfLoop [pys "xy"] (List.replicate 3000 'z') =
        (List.replicate 3000 'z' ++ pys "xy").take 3000
    ∧ pys "[Note: PDF content was truncated.]" <:+ pdf_prompt [pys "one"] := by
  refine ⟨((pdf_extract_spec [List.replicate 3001 'a']).1 ?_).2,
    (pdf_extract_spec [pys "one", pys "two"]).2.1 (by decide),
    (pdf_extract_spec []).2.2.1 (List.replicate 3000 'z') (pys "xy") [] ?_,
    (pdf_extract_spec [pys "one"]).2.2.2⟩
  · simp only [List.flatten_cons, List.flatten_nil, List.append_nil, List.length_replicate]
    omega
  · simp only [List.length_append, List.length_replicate]
    rw [show (pys "xy").length = 2 from rfl]
    omega

/-- C9: `.txt` extraction reads the full text; over 3000 characters only the
first 3000 are kept and the truncation note is set; otherwise the full text is
kept and the note is empty. -/
theorem txt_extract_spec (content : PyStr) :
    (3000 < content.length →
        (content.take 3000).length = 3000
        ∧ txt_note content = pys "\n\n[Note: Text was truncated.]")
    ∧ (content.length ≤ 3000 →
        content.take 3000 = content ∧ txt_note content = pys "") := by
  constructor
  · intro h
    constructor
    · rw [List.length_take]
      omega
    · unfold txt_note
      rw [if_pos h]
  · intro h
    refine ⟨List.take_of_length_le h, ?_⟩
    unfold txt_note
    rw [if_neg (by omega)]

/-- Witness for C9: a 4000-character input yields a 3000-character excerpt with
the truncation note set; a 100-character input is kept whole with no note. -/
theorem txt_extract_spec_witness :
    ((List.replicate 4000 'a').take 3000).length = 3000
    ∧ txt_note (List.replicate 4000 'a') = pys "\n\n[Note: Text was truncated.]"
    ∧ (List.replicate 100 'b').take 3000 = List.replicate 100 'b'
    ∧ txt_note (List.replicate 100 'b') = pys "" := by
  have h1 := (txt_extract_spec (List.replicate 4000 'a')).1
    (by rw [List.length_replicate]; omega)
  have h2 := (txt_extract_spec (List.replicate 100 'b')).2
    (by rw [List.length_replicate]; omega)
  exact ⟨h1.1, h1.2, h2.1, h2.2⟩
